import Mathlib

/-!
Verification of the chat-with-canvas application against its specification.

The development shallowly embeds the application's data model and event
handlers: pure functions become Lean functions, React state updates become
explicit state passing, and JavaScript numbers become rationals (`ℚ`) where
fractional arithmetic occurs and integers (`Int`) where only integral values
arise.  Timestamps are epoch milliseconds (`Int`).  The JavaScript platform
primitives the code relies on (`Date` serialization, `String.prototype.trim`,
`String.prototype.split`) are modelled from their ECMA-262 definitions.
-/

namespace CatWithH

/-! ## Platform model: ECMA-262 Date (UTC calendar arithmetic)

`JSON.stringify` serializes a `Date` through `toISOString`, which decomposes
epoch milliseconds into UTC calendar components; `new Date(isoString)` parses
the components back through `MakeDay`/`MakeDate`.  The conversions below
follow the ECMA-262 clauses (DayFromYear, InLeapYear, MonthFromTime,
DateFromTime, YearFromTime, MakeDay).  Integer division `/` on `Int` is
Euclidean division, which agrees with the floor divisions of the ECMA
formulas because all divisors are positive. -/

/-- Day number (days since the Unix epoch) of January 1 of a year
(ECMA-262 DayFromYear). -/
def dayFromYear (y : Int) : Int :=
  365 * (y - 1970) + (y - 1969) / 4 - (y - 1901) / 100 + (y - 1601) / 400

/-- Leap-year test (ECMA-262 InLeapYear / DaysInYear). -/
def inLeapYear (y : Int) : Bool :=
  (y % 4 == 0 && y % 100 != 0) || y % 400 == 0

/-- Number of days in a year (ECMA-262 DaysInYear). -/
def daysInYear (y : Int) : Int := if inLeapYear y then 366 else 365

/-- Month (1 to 12) from a day index within the year, following the
ECMA-262 MonthFromTime thresholds; `L` is 1 in leap years and 0 otherwise. -/
def monthOfDoyL (L doy : Int) : Int :=
  if doy < 31 then 1
  else if doy < 59 + L then 2
  else if doy < 90 + L then 3
  else if doy < 120 + L then 4
  else if doy < 151 + L then 5
  else if doy < 181 + L then 6
  else if doy < 212 + L then 7
  else if doy < 243 + L then 8
  else if doy < 273 + L then 9
  else if doy < 304 + L then 10
  else if doy < 334 + L then 11
  else 12

/-- Day index within the year of the first day of a month (1 to 12); the
cumulative month lengths used both by the ECMA-262 DateFromTime formulas and
by the MakeDay computation when a serialized date is parsed back. -/
def firstDayOfMonthL (L m : Int) : Int :=
  if m = 1 then 0
  else if m = 2 then 31
  else if m = 3 then 59 + L
  else if m = 4 then 90 + L
  else if m = 5 then 120 + L
  else if m = 6 then 151 + L
  else if m = 7 then 181 + L
  else if m = 8 then 212 + L
  else if m = 9 then 243 + L
  else if m = 10 then 273 + L
  else if m = 11 then 304 + L
  else 334 + L

/-- Day of month (1-based) from a day index within the year (ECMA-262
DateFromTime: in each month the date is the day of year minus the first day
of that month, 1-based). -/
def dayOfMonthL (L doy : Int) : Int :=
  doy - firstDayOfMonthL L (monthOfDoyL L doy) + 1

/-- Fuel-indexed search for the year containing a given day number, starting
from a candidate year `y` with day offset `d` relative to January 1 of `y`
(ECMA-262 YearFromTime: the unique year whose day range contains the day). -/
def yearFromDayAux : Nat → Int → Int → Int × Int
  | 0, y, d => (y, d)
  | fuel + 1, y, d =>
    if d < 0 then yearFromDayAux fuel (y - 1) (d + daysInYear (y - 1))
    else if daysInYear y ≤ d then yearFromDayAux fuel (y + 1) (d - daysInYear y)
    else (y, d)

/-- Year and day-of-year containing a given day number. -/
def yearFromDay (day : Int) : Int × Int :=
  yearFromDayAux (day.natAbs + 1) 1970 day

/-- Calendar date (year, month, day) of a day number: the UTC calendar
decomposition performed by the JavaScript Date object. -/
def civilFromDays (day : Int) : Int × Int × Int :=
  let yd := yearFromDay day
  let L : Int := if inLeapYear yd.1 then 1 else 0
  (yd.1, monthOfDoyL L yd.2, dayOfMonthL L yd.2)

/-- Day number of a calendar date (ECMA-262 MakeDay), used when a serialized
date string is parsed back by `new Date(...)`. -/
def daysFromCivil (y m d : Int) : Int :=
  dayFromYear y + firstDayOfMonthL (if inLeapYear y then 1 else 0) m + (d - 1)

/-- UTC calendar components of an instant, as printed by
`Date.prototype.toISOString` (year, month, day, hour, minute, second,
millisecond); the ISO string is a fixed-width decimal rendering of exactly
these seven components. -/
structure DateComponents where
  year : Int
  month : Int
  day : Int
  hour : Int
  minute : Int
  second : Int
  millisecond : Int
deriving DecidableEq, Repr

/-- Decomposition of epoch milliseconds into the components printed by
`toISOString` (ECMA-262 HourFromTime, MinFromTime, SecFromTime, msFromTime
together with the calendar decomposition of the day number). -/
def toISOComponents (t : Int) : DateComponents :=
  let day := t / 86400000
  let ms := t % 86400000
  let c := civilFromDays day
  { year := c.1, month := c.2.1, day := c.2.2,
    hour := ms / 3600000,
    minute := ms / 60000 % 60,
    second := ms / 1000 % 60,
    millisecond := ms % 1000 }

/-- Recombination of ISO components into epoch milliseconds, as performed by
`new Date(isoString)` (ECMA-262 MakeDay, MakeTime, MakeDate). -/
def fromISOComponents (c : DateComponents) : Int :=
  daysFromCivil c.year c.month c.day * 86400000
    + c.hour * 3600000 + c.minute * 60000 + c.second * 1000 + c.millisecond

/-! ## Chat session store (src/src/hooks/useChatSessions.ts)

A `Message` and a `ChatSession` mirror the interfaces of
`useChatSessions.ts`; `Date` fields are epoch milliseconds.  The stored
(JSON) form replaces each `Date` by the components of its ISO string, and
the load effect (lines 25-62) reconstructs `lastActivity` and each message
`timestamp` with `new Date(...)`.  A failed or empty read is the
`none` / `Except.error` case. -/

/-- Message role: the `type: 'user' | 'ai'` field. -/
inductive MsgType where
  | user
  | ai
deriving DecidableEq, Repr

/-- A chat message (interface `Message` of `useChatSessions.ts`). -/
structure Message where
  id : String
  type : MsgType
  content : String
  timestamp : Int
deriving DecidableEq, Repr

/-- A chat session (interface `ChatSession` of `useChatSessions.ts`). -/
structure ChatSession where
  id : String
  title : String
  messages : List Message
  lastActivity : Int
  unreadCount : Option Nat
deriving DecidableEq, Repr

/-- The JSON-serialized form of a message: `JSON.stringify` keeps every
field and turns the `Date` into its ISO string. -/
structure StoredMessage where
  id : String
  type : MsgType
  content : String
  timestamp : DateComponents
deriving DecidableEq, Repr

/-- The JSON-serialized form of a session. -/
structure StoredSession where
  id : String
  title : String
  messages : List StoredMessage
  lastActivity : DateComponents
  unreadCount : Option Nat
deriving DecidableEq, Repr

/-- Serialization of one message (`JSON.stringify` on the save path,
lines 65-73). -/
def serializeMessage (m : Message) : StoredMessage :=
  { id := m.id, type := m.type, content := m.content,
    timestamp := toISOComponents m.timestamp }

/-- Serialization of one session. -/
def serializeSession (s : ChatSession) : StoredSession :=
  { id := s.id, title := s.title,
    messages := s.messages.map serializeMessage,
    lastActivity := toISOComponents s.lastActivity,
    unreadCount := s.unreadCount }

/-- Serialization of the whole session collection. -/
def serializeSessions (sessions : List ChatSession) : List StoredSession :=
  sessions.map serializeSession

/-- Reconstruction of one message on load:
`{ ...msg, timestamp: new Date(msg.timestamp) }` (lines 34-37). -/
def loadStoredMessage (m : StoredMessage) : Message :=
  { id := m.id, type := m.type, content := m.content,
    timestamp := fromISOComponents m.timestamp }

/-- Reconstruction of one session on load:
`{ ...session, lastActivity: new Date(session.lastActivity), messages: ... }`
(lines 31-38). -/
def loadStoredSession (s : StoredSession) : ChatSession :=
  { id := s.id, title := s.title,
    messages := s.messages.map loadStoredMessage,
    lastActivity := fromISOComponents s.lastActivity,
    unreadCount := s.unreadCount }

/-- The default chat created when nothing is stored or loading fails
(lines 41-48 and 52-59). -/
def defaultChat (now : Int) : ChatSession :=
  { id := "default-chat", title := "New Chat", messages := [],
    lastActivity := now, unreadCount := none }

/-- The load effect (lines 25-62): `none` models an absent or empty
`localStorage` entry, `Except.error` a failed `JSON.parse` or a parsed value
of the wrong shape (both caught by the `try`/`catch`), and `Except.ok` a
successfully parsed session array.  The function is total: every failure
path ends in the default chat, no exception propagates. -/
def loadSessions (stored : Option (Except String (List StoredSession)))
    (now : Int) : List ChatSession :=
  match stored with
  | some (Except.ok parsed) => parsed.map loadStoredSession
  | some (Except.error _) => [defaultChat now]
  | none => [defaultChat now]

/-! ## Platform model: string trimming and splitting

`String.prototype.trim` strips ECMA-262 WhiteSpace and LineTerminator code
points from both ends; `text.split(' ')` cuts the string at every single
space, so its piece count is the number of spaces plus one.  Both are
modelled structurally on the character list of the string. -/

/-- ECMA-262 WhiteSpace / LineTerminator test (the code points relevant to
`String.prototype.trim`). -/
def isJsSpace (c : Char) : Bool :=
  c == ' ' || c == '\t' || c == '\n' || c == '\r' ||
  c == '\x0b' || c == '\x0c' || c == '\u00A0' || c == '\uFEFF' ||
  c == '\u2028' || c == '\u2029'

/-- Model of `String.prototype.trim`. -/
def jsTrim (s : String) : String :=
  ⟨((s.data.dropWhile isJsSpace).reverse.dropWhile isJsSpace).reverse⟩

/-- Model of `text.split(sep)` for a single-character separator: the list of
(possibly empty) pieces between occurrences of `sep`. -/
def splitOnChar (sep : Char) (cs : List Char) : List (List Char) :=
  cs.foldr
    (fun c r =>
      if c = sep then [] :: r
      else
        match r with
        | [] => [[c]]
        | h :: t => (c :: h) :: t)
    [[]]

/-! ## Chat panel (src/src/components/ChatPanel.tsx)

The panel keeps the conversation as a list of turns, each holding the user
message and, once the stream finished, the assistant message.  `handleSubmit`
(lines 367-389) appends a locally built user message before any network
activity; the `useChat onFinish` callback (lines 208-234) fills in the
assistant message of the last turn.  Both paths push the flattened turn list
into the session store via `updateChatSession`; `sessionMessages` is that
flattening (`flatMap turn => [turn.user, ...(turn.ai ? [turn.ai] : [])]`). -/

/-- One conversation turn (interface `ChatTurn`). -/
structure Turn where
  user : Message
  ai : Option Message
deriving DecidableEq, Repr

/-- The submit handler (lines 367-389): a blank input (empty after trim) is
rejected; otherwise a user message with id `` `${Date.now()}-user` `` and
the untrimmed input as content is appended as a new turn. -/
def handleSubmit (input : String) (now : Int) (turns : List Turn) : List Turn :=
  if jsTrim input = "" then turns
  else
    turns ++ [{ user := { id := toString now ++ "-user", type := MsgType.user,
                          content := input, timestamp := now },
                ai := none }]

/-- The `onFinish` stream-completion callback (lines 212-233): with no turns
it does nothing; if the last turn already has an assistant message it does
nothing; otherwise it stores the assistant message in the last turn. -/
def onFinish (msgId content : String) (now : Int) (turns : List Turn) : List Turn :=
  match turns.getLast? with
  | none => turns
  | some lastTurn =>
    if lastTurn.ai.isSome then turns
    else
      turns.dropLast ++
        [{ lastTurn with
            ai := some { id := msgId, type := MsgType.ai, content := content,
                         timestamp := now } }]

/-- The message list stored into the chat session (the `flatMap` of
lines 228 and 380). -/
def sessionMessages : List Turn → List Message
  | [] => []
  | t :: ts => t.user :: (t.ai.toList ++ sessionMessages ts)

/-- Folding a sequence of submissions (input text and submit time). -/
def submitAll (inputs : List (String × Int)) (turns : List Turn) : List Turn :=
  inputs.foldl (fun ts p => handleSubmit p.1 p.2 ts) turns

/-! ## Canvas zoom (src/unnamed/part_001)

Zoom state is a single scalar, initially 1.  The wheel handler
(lines 267-278), the zoom-in button (lines 342-344) and the zoom-out button
(lines 346-348) are the only writers. -/

/-- The wheel handler (lines 268-273): the delta is
`e.deltaY > 0 ? 1 : 1` and the new zoom is
`Math.max(0.5, Math.min(3, prev * delta))`. -/
def handleWheel (deltaY zoom : ℚ) : ℚ :=
  let delta : ℚ := if deltaY > 0 then 1 else 1
  max 0.5 (min 3 (zoom * delta))

/-- The zoom-in button: `Math.min(prev * 1.2, 3)`. -/
def handleZoomIn (zoom : ℚ) : ℚ := min (zoom * 1.2) 3

/-- The zoom-out button: `Math.max(prev / 1.2, 0.5)`. -/
def handleZoomOut (zoom : ℚ) : ℚ := max (zoom / 1.2) 0.5

/-- A zoom-affecting input event. -/
inductive ZoomOp where
  | wheel (deltaY : ℚ)
  | zoomIn
  | zoomOut

/-- Apply one zoom event to the zoom state. -/
def zoomStep (z : ℚ) (op : ZoomOp) : ℚ :=
  match op with
  | ZoomOp.wheel d => handleWheel d z
  | ZoomOp.zoomIn => handleZoomIn z
  | ZoomOp.zoomOut => handleZoomOut z

/-- The zoom level after a sequence of zoom events from the initial level 1. -/
def applyZoomOps (ops : List ZoomOp) : ℚ := ops.foldl zoomStep 1

/-! ## Canvas panel state (src/unnamed/part_001)

The panel state consists of the canvas list, the current canvas id and the
working `nodes` / `connections` arrays of the current canvas.  Spatial event
parameters (viewport rectangle, pan, zoom) and clock readings (`Date.now()`,
`new Date()`) are passed into the operations as explicit inputs. -/

/-- A text node on the canvas (interface `TextNode`). -/
structure TextNode where
  id : String
  text : String
  x : ℚ
  y : ℚ
  width : ℚ
  height : ℚ
  sourceMessageId : Option String
  sourceChatId : Option String
  color : String
deriving DecidableEq, Repr

/-- An endpoint coordinate of a connection. -/
structure ConnPoint where
  x : ℚ
  y : ℚ
deriving DecidableEq, Repr

/-- Connection style tag. -/
inductive ConnType where
  | straight
  | curved
  | angled
deriving DecidableEq, Repr

/-- A connection between two nodes (interface `Connection`; the `from` and
`to` fields are named `fromId` and `toId` here). -/
structure Connection where
  id : String
  fromId : String
  toId : String
  fromPoint : ConnPoint
  toPoint : ConnPoint
  type : ConnType
  label : Option String
deriving DecidableEq, Repr

/-- A canvas (interface `CanvasData`). -/
structure CanvasData where
  id : String
  title : String
  nodes : List TextNode
  connections : List Connection
  createdAt : Int
  lastModified : Int
deriving DecidableEq, Repr

/-- The canvas-panel state (the `useState` pieces of `CanvasPanel`). -/
structure CanvasPanelState where
  canvases : List CanvasData
  currentCanvasId : String
  nodes : List TextNode
  connections : List Connection
deriving DecidableEq, Repr

/-- The fixed ten-color palette (lines 93-96). -/
def colors : List String :=
  ["#3B82F6", "#14B8A6", "#F97316", "#EF4444", "#8B5CF6",
   "#06B6D4", "#84CC16", "#F59E0B", "#EC4899", "#6366F1"]

/-- Model of JavaScript `Math.round` (round half toward positive infinity):
`Math.round(x) = Math.floor(x + 0.5)`. -/
def jsRound (q : ℚ) : Int := ⌊q + 1 / 2⌋

/-- The initial-size heuristic for dropped text (lines 216-235).
`words` is `text.split(' ').length`, `chars` is `text.length`; integer
division `/` on `Int` is the `Math.floor` of the positive quotients. -/
def calculateInitialSize (text : String) : Int × Int :=
  let words : Int := ((splitOnChar ' ' text.data).length : Int)
  let chars : Int := (text.length : Int)
  let width : ℚ :=
    if 100 < chars then min 400 (240 + ((chars : ℚ) - 100) * 1.5) else 240
  let height1 : ℚ :=
    if 100 < chars then min 250 (120 + (((chars - 100) / 60 : Int) : ℚ) * 25)
    else 120
  let height : ℚ :=
    if 20 < words then min 300 (height1 + (((words - 20) / 12 : Int) : ℚ) * 20)
    else height1
  (jsRound width, jsRound height)

/-- The immediate save effect (lines 99-129): copy the working node and
connection arrays into the canvas record of the current canvas and stamp
`lastModified`. -/
def saveCurrentCanvas (now : Int) (s : CanvasPanelState) : CanvasPanelState :=
  { s with
    canvases := s.canvases.map (fun c =>
      if c.id = s.currentCanvasId then
        { c with nodes := s.nodes, connections := s.connections,
                 lastModified := now }
      else c) }

/-- The virtual x coordinate the dropped-text effect computes for the
viewport center (line 244); the y coordinate (line 245) is identical with
the height and vertical pan. -/
def viewportCenterX (rectW panX zoom : ℚ) : ℚ :=
  (rectW / 2 - panX + 2500) / zoom

/-- Horizontal screen position of a virtual canvas point under the canvas
style transform `translate(pan.x - 2500, pan.y - 2500) scale(zoom)` with
`transform-origin: center` of the 5000 by 5000 canvas (lines 442-457): with
origin o = 2500 the point p maps to
o + (pan.x - 2500) + zoom * (p - o) = pan.x + zoom * (p - 2500). -/
def canvasScreenX (zoom panX p : ℚ) : ℚ :=
  panX + zoom * (p - 2500)

/-- The dropped-text effect (lines 238-264): compute the viewport center in
virtual coordinates, size the new node by `calculateInitialSize`, color it
by the current node count modulo the palette size, append it, and run the
save effect. -/
def dropTextEffect (draggedText : String) (srcMsg srcChat : Option String)
    (rectW rectH panX panY zoom : ℚ) (now : Int)
    (s : CanvasPanelState) : CanvasPanelState :=
  let centerX := viewportCenterX rectW panX zoom
  let centerY := viewportCenterX rectH panY zoom
  let size := calculateInitialSize draggedText
  let w : ℚ := (size.1 : ℚ)
  let h : ℚ := (size.2 : ℚ)
  let newNode : TextNode :=
    { id := toString now, text := draggedText,
      x := centerX - w / 2, y := centerY - h / 2,
      width := w, height := h,
      sourceMessageId := srcMsg, sourceChatId := srcChat,
      color := colors.getD (s.nodes.length % colors.length) "" }
  saveCurrentCanvas now { s with nodes := s.nodes ++ [newNode] }

/-- The node delete handler (lines 350-354) followed by the save effect. -/
def handleDeleteNode (nodeId : String) (now : Int)
    (s : CanvasPanelState) : CanvasPanelState :=
  saveCurrentCanvas now
    { s with
      nodes := s.nodes.filter (fun n => n.id != nodeId),
      connections := s.connections.filter
        (fun c => c.fromId != nodeId && c.toId != nodeId) }

/-- The canvas switch handler (lines 132-186): when switching away from a
different current canvas, save the working arrays into the outgoing canvas
and load the target canvas; otherwise just load the target if it exists. -/
def handleCanvasSelect (canvasId : String) (now : Int)
    (s : CanvasPanelState) : CanvasPanelState :=
  if s.currentCanvasId ≠ "" ∧ s.currentCanvasId ≠ canvasId then
    let updated := s.canvases.map (fun c =>
      if c.id = s.currentCanvasId then
        { c with nodes := s.nodes, connections := s.connections,
                 lastModified := now }
      else c)
    match updated.find? (fun c => c.id == canvasId) with
    | some target =>
      { canvases := updated, currentCanvasId := canvasId,
        nodes := target.nodes, connections := target.connections }
    | none => { s with canvases := updated }
  else
    match s.canvases.find? (fun c => c.id == canvasId) with
    | some c =>
      { s with currentCanvasId := canvasId, nodes := c.nodes,
               connections := c.connections }
    | none => s

/-- The new-canvas handler (lines 189-201): append a canvas with id
`` `canvas-${Date.now()}` `` and title `` `Canvas ${length + 1}` ``, then
select it. -/
def handleNewCanvas (now : Int) (s : CanvasPanelState) : CanvasPanelState :=
  let newCanvas : CanvasData :=
    { id := "canvas-" ++ toString now,
      title := "Canvas " ++ toString (s.canvases.length + 1),
      nodes := [], connections := [], createdAt := now, lastModified := now }
  handleCanvasSelect newCanvas.id now
    { s with canvases := s.canvases ++ [newCanvas] }

/-- The canvas delete handler (lines 204-213): a delete with at most one
canvas present returns without any state change; otherwise the canvas is
filtered out and, if it was current, the first remaining canvas (computed
from the pre-delete list) is selected. -/
def handleCanvasDelete (canvasId : String) (now : Int)
    (s : CanvasPanelState) : CanvasPanelState :=
  if s.canvases.length ≤ 1 then s
  else
    let remaining := s.canvases.filter (fun c => c.id != canvasId)
    let s2 := { s with canvases := remaining }
    if s.currentCanvasId = canvasId then
      match remaining.head? with
      | some c => handleCanvasSelect c.id now s2
      | none => s2
    else s2

/-- A canvas-panel operation with its environment inputs (clock readings,
viewport rectangle, pan and zoom at the moment of the event). -/
inductive CanvasOp where
  | dropText (draggedText : String) (srcMsg srcChat : Option String)
      (rectW rectH panX panY zoom : ℚ) (now : Int)
  | deleteNode (nodeId : String) (now : Int)
  | newCanvas (now : Int)
  | deleteCanvas (canvasId : String) (now : Int)
  | selectCanvas (canvasId : String) (now : Int)

/-- Apply one canvas-panel operation. -/
def applyCanvasOp (s : CanvasPanelState) (op : CanvasOp) : CanvasPanelState :=
  match op with
  | CanvasOp.dropText t sm sc rw rh px py z now =>
      dropTextEffect t sm sc rw rh px py z now s
  | CanvasOp.deleteNode nodeId now => handleDeleteNode nodeId now s
  | CanvasOp.newCanvas now => handleNewCanvas now s
  | CanvasOp.deleteCanvas canvasId now => handleCanvasDelete canvasId now s
  | CanvasOp.selectCanvas canvasId now => handleCanvasSelect canvasId now s

/-- Apply a sequence of canvas-panel operations. -/
def applyCanvasOps (ops : List CanvasOp) (s : CanvasPanelState) : CanvasPanelState :=
  ops.foldl applyCanvasOp s

/-- The initial panel state (lines 59-69): one default canvas, current. -/
def initState (t0 : Int) : CanvasPanelState :=
  { canvases := [{ id := "default-canvas", title := "Canvas 1", nodes := [],
                   connections := [], createdAt := t0, lastModified := t0 }],
    currentCanvasId := "default-canvas", nodes := [], connections := [] }

/-- The ids of the canvases a sequence of operations creates. -/
def createIds (ops : List CanvasOp) : List String :=
  ops.filterMap (fun op =>
    match op with
    | CanvasOp.newCanvas now => some ("canvas-" ++ toString now)
    | _ => none)

/-- The id list of the canvases in a state. -/
def canvasIds (s : CanvasPanelState) : List String :=
  s.canvases.map (fun c => c.id)

/-- Whether an operation is a dropped-text node creation. -/
def isDropOp : CanvasOp → Bool
  | CanvasOp.dropText _ _ _ _ _ _ _ _ _ => true
  | _ => false

/-! ## Text block resizing (src/unnamed/part_000)

A resize gesture starts with `handleResizeStart` (records the mouse position
and the block size), every mouse move recomputes the candidate size from the
gesture start clamped to the fixed bounds (lines 71-78), and mouse up
commits the current candidate size through `onResize` (lines 79-84). -/

/-- Resize bound (line 53). -/
def minWidth : ℚ := 200

/-- Resize bound (line 54). -/
def maxWidth : ℚ := 600

/-- Resize bound (line 55). -/
def minHeight : ℚ := 100

/-- Resize bound (line 56). -/
def maxHeight : ℚ := 500

/-- The size committed by a resize gesture: start mouse position, start
size, and the list of mouse-move client positions; each move recomputes the
clamped size from the gesture start, and the commit takes the last computed
size (the start size if the mouse never moved). -/
def resizeGesture (startX startY startW startH : ℚ)
    (moves : List (ℚ × ℚ)) : ℚ × ℚ :=
  moves.foldl
    (fun _ m =>
      (max minWidth (min maxWidth (startW + (m.1 - startX))),
       max minHeight (min maxHeight (startH + (m.2 - startY)))))
    (startW, startH)

-- ===========================================================================
-- Theorems
-- ===========================================================================

theorem ediv4_succ_diff (a : Int) :
    (a + 1) / 4 - a / 4 = if (a + 1) % 4 = 0 then 1 else 0 := by
  split_ifs with h <;> omega

theorem ediv100_succ_diff (a : Int) :
    (a + 1) / 100 - a / 100 = if (a + 1) % 100 = 0 then 1 else 0 := by
  split_ifs with h <;> omega

theorem ediv400_succ_diff (a : Int) :
    (a + 1) / 400 - a / 400 = if (a + 1) % 400 = 0 then 1 else 0 := by
  split_ifs with h <;> omega

theorem dayFromYear_succ (y : Int) :
    dayFromYear (y + 1) = dayFromYear y + daysInYear y := by
  unfold dayFromYear daysInYear inLeapYear
  have h4 := ediv4_succ_diff (y - 1969)
  have h100 := ediv100_succ_diff (y - 1901)
  have h400 := ediv400_succ_diff (y - 1601)
  simp only [Bool.or_eq_true, Bool.and_eq_true, beq_iff_eq, bne_iff_ne]
  have e4 : y + 1 - 1969 = y - 1969 + 1 := by ring
  have e100 : y + 1 - 1901 = y - 1901 + 1 := by ring
  have e400 : y + 1 - 1601 = y - 1601 + 1 := by ring
  rw [e4, e100, e400]
  split_ifs at * <;> omega

theorem daysInYear_lb (y : Int) : 365 ≤ daysInYear y := by
  unfold daysInYear
  split_ifs <;> omega

theorem daysInYear_ub (y : Int) : daysInYear y ≤ 366 := by
  unfold daysInYear
  split_ifs <;> omega

/-- If the offset is already inside the year, the search returns at once. -/
theorem yearFromDayAux_settled (fuel : Nat) (y d : Int)
    (h0 : 0 ≤ d) (h1 : d < daysInYear y) :
    yearFromDayAux fuel y d = (y, d) := by
  cases fuel with
  | zero => rfl
  | succ fuel =>
    simp only [yearFromDayAux]
    rw [if_neg (by omega), if_neg (by omega)]

/-- Upward search phase: a nonnegative offset bounded by the fuel settles. -/
theorem yearFromDayAux_up : ∀ (fuel : Nat) (y d : Int), 0 ≤ d →
    d < 365 * fuel + 365 →
    dayFromYear (yearFromDayAux fuel y d).1 + (yearFromDayAux fuel y d).2
        = dayFromYear y + d ∧
    0 ≤ (yearFromDayAux fuel y d).2 ∧
    (yearFromDayAux fuel y d).2 < daysInYear (yearFromDayAux fuel y d).1 := by
  intro fuel
  induction fuel with
  | zero =>
    intro y d h0 h1
    have hl := daysInYear_lb y
    have hs : d < daysInYear y := by push_cast at h1; omega
    rw [yearFromDayAux_settled 0 y d h0 hs]
    exact ⟨rfl, h0, hs⟩
  | succ fuel ih =>
    intro y d h0 h1
    push_cast at h1
    by_cases hs : d < daysInYear y
    · rw [yearFromDayAux_settled (fuel + 1) y d h0 hs]
      exact ⟨rfl, h0, hs⟩
    · have hy := daysInYear_lb y
      have hstep : yearFromDayAux (fuel + 1) y d
          = yearFromDayAux fuel (y + 1) (d - daysInYear y) := by
        simp only [yearFromDayAux]
        rw [if_neg (by omega), if_pos (by omega)]
      rw [hstep]
      have hrec := ih (y + 1) (d - daysInYear y) (by omega) (by omega)
      rw [dayFromYear_succ y] at hrec
      exact ⟨by omega, hrec.2.1, hrec.2.2⟩

/-- Downward search phase: a negative offset bounded below by the fuel
settles. -/
theorem yearFromDayAux_down : ∀ (fuel : Nat) (y d : Int), d < 0 →
    -(365 * fuel) ≤ d →
    dayFromYear (yearFromDayAux fuel y d).1 + (yearFromDayAux fuel y d).2
        = dayFromYear y + d ∧
    0 ≤ (yearFromDayAux fuel y d).2 ∧
    (yearFromDayAux fuel y d).2 < daysInYear (yearFromDayAux fuel y d).1 := by
  intro fuel
  induction fuel with
  | zero =>
    intro y d h0 h1
    push_cast at h1
    omega
  | succ fuel ih =>
    intro y d h0 h1
    push_cast at h1
    have hy := daysInYear_lb (y - 1)
    have hy2 := daysInYear_ub (y - 1)
    have hstep : yearFromDayAux (fuel + 1) y d
        = yearFromDayAux fuel (y - 1) (d + daysInYear (y - 1)) := by
      simp only [yearFromDayAux]
      rw [if_pos (by omega)]
    rw [hstep]
    have hs1 := dayFromYear_succ (y - 1)
    rw [(by ring : y - 1 + 1 = y)] at hs1
    by_cases hneg : d + daysInYear (y - 1) < 0
    · have hrec := ih (y - 1) (d + daysInYear (y - 1)) hneg (by omega)
      exact ⟨by omega, hrec.2⟩
    · have hsettle := yearFromDayAux_settled fuel (y - 1) (d + daysInYear (y - 1))
        (by omega) (by omega)
      rw [hsettle]
      refine ⟨?_, ?_, ?_⟩
      · show dayFromYear (y - 1) + (d + daysInYear (y - 1)) = dayFromYear y + d
        omega
      · show (0 : Int) ≤ d + daysInYear (y - 1)
        omega
      · show d + daysInYear (y - 1) < daysInYear (y - 1)
        omega

theorem dayFromYear_epoch : dayFromYear 1970 = 0 := by decide

/-- The year search is exact: it returns the year and the day offset into
it. -/
theorem yearFromDay_spec (day : Int) :
    dayFromYear (yearFromDay day).1 + (yearFromDay day).2 = day ∧
    0 ≤ (yearFromDay day).2 ∧
    (yearFromDay day).2 < daysInYear (yearFromDay day).1 := by
  unfold yearFromDay
  by_cases h : 0 ≤ day
  · have hup := yearFromDayAux_up (day.natAbs + 1) 1970 day h (by omega)
    rw [dayFromYear_epoch] at hup
    exact ⟨by omega, hup.2⟩
  · have hdn := yearFromDayAux_down (day.natAbs + 1) 1970 day (by omega) (by omega)
    rw [dayFromYear_epoch] at hdn
    exact ⟨by omega, hdn.2⟩

/-- Round trip: converting a day number to a calendar date and back is the
identity. -/
theorem daysFromCivil_civilFromDays (day : Int) :
    daysFromCivil (civilFromDays day).1 (civilFromDays day).2.1
      (civilFromDays day).2.2 = day := by
  unfold civilFromDays daysFromCivil dayOfMonthL
  dsimp only
  have hy := yearFromDay_spec day
  omega

/-- Round trip of a timestamp through its ISO components: serializing an
instant with `toISOString` and parsing it back with `new Date` yields the
same instant. -/
theorem fromISO_toISO (t : Int) : fromISOComponents (toISOComponents t) = t := by
  unfold toISOComponents fromISOComponents
  dsimp only
  rw [daysFromCivil_civilFromDays]
  omega

/-- One message survives the store/load round trip. -/
theorem loadStoredMessage_serializeMessage (m : Message) :
    loadStoredMessage (serializeMessage m) = m := by
  unfold loadStoredMessage serializeMessage
  dsimp only
  rw [fromISO_toISO]

/-- One session survives the store/load round trip. -/
theorem loadStoredSession_serializeSession (s : ChatSession) :
    loadStoredSession (serializeSession s) = s := by
  unfold loadStoredSession serializeSession
  dsimp only
  rw [fromISO_toISO]
  congr 1
  rw [List.map_map]
  have hcomp : loadStoredMessage ∘ serializeMessage = id := by
    funext m
    exact loadStoredMessage_serializeMessage m
  rw [hcomp, List.map_id]

/-- C2: persisting a session list (JSON serialization, with timestamps
rendered as ISO strings) and reloading it (parse plus reconstruction of
`lastActivity` and message timestamps via `new Date`) yields a session list
field-for-field equal to the original; in particular every timestamp denotes
the same instant as before persisting. -/
theorem sessions_persist_roundtrip (sessions : List ChatSession) (now : Int) :
    loadSessions (some (Except.ok (serializeSessions sessions))) now = sessions := by
  unfold loadSessions serializeSessions
  dsimp only
  rw [List.map_map]
  have hcomp : loadStoredSession ∘ serializeSession = id := by
    funext s
    exact loadStoredSession_serializeSession s
  rw [hcomp, List.map_id]

/-- C8: if nothing is stored under the sessions key, or reading/parsing the
stored value fails, the session store falls back to exactly one session with
id `default-chat`, title `New Chat` and no messages; `loadSessions` is a
total function, so the failure is only absorbed (no exception propagates). -/
theorem load_failure_falls_back_to_default (e : String) (now : Int) :
    loadSessions none now
        = [{ id := "default-chat", title := "New Chat", messages := [],
             lastActivity := now, unreadCount := none }] ∧
    loadSessions (some (Except.error e)) now
        = [{ id := "default-chat", title := "New Chat", messages := [],
             lastActivity := now, unreadCount := none }] :=
  ⟨rfl, rfl⟩

/-! ### Zoom clamping (C3, C4) -/

/-- Any value clamped by the wheel handler lands in the zoom range. -/
theorem wheel_clamp_bounds (x : ℚ) :
    1 / 2 ≤ max 0.5 (min 3 x) ∧ max 0.5 (min 3 x) ≤ 3 := by
  constructor
  · have h1 : (1 / 2 : ℚ) = 0.5 := by norm_num
    rw [h1]
    exact le_max_left _ _
  · exact max_le (by norm_num) (min_le_left _ _)

/-- C3: the wheel handler never changes a zoom level that is inside the
clamp range, because the delta computed from the wheel direction is 1 for
both directions (`e.deltaY > 0 ? 1 : 1`).  The claim that some wheel event
changes the zoom level (up in one direction, down in the other) fails on
every wheel event. -/
theorem wheel_never_changes_zoom (d z : ℚ) (h0 : 1 / 2 ≤ z) (h1 : z ≤ 3) :
    handleWheel d z = z := by
  unfold handleWheel
  dsimp only
  have hd : (if d > 0 then (1 : ℚ) else 1) = 1 := by split_ifs <;> rfl
  rw [hd, mul_one, min_eq_right h1, max_eq_right (by linarith)]

/-- Witness for C3: concrete wheel events in both directions at zoom 1
leave the zoom at 1. -/
theorem wheel_never_changes_zoom_witness :
    (1 / 2 : ℚ) ≤ 1 ∧ (1 : ℚ) ≤ 3 ∧
    handleWheel 100 1 = 1 ∧ handleWheel (-100) 1 = 1 :=
  ⟨by norm_num, by norm_num,
   wheel_never_changes_zoom 100 1 (by norm_num) (by norm_num),
   wheel_never_changes_zoom (-100) 1 (by norm_num) (by norm_num)⟩

/-- One zoom event preserves the zoom range. -/
theorem zoomStep_bounds (z : ℚ) (op : ZoomOp) (h0 : 1 / 2 ≤ z) (h1 : z ≤ 3) :
    1 / 2 ≤ zoomStep z op ∧ zoomStep z op ≤ 3 := by
  cases op with
  | wheel d =>
    unfold zoomStep handleWheel
    exact wheel_clamp_bounds _
  | zoomIn =>
    unfold zoomStep handleZoomIn
    constructor
    · exact le_min (by linarith) (by norm_num)
    · exact min_le_right _ _
  | zoomOut =>
    unfold zoomStep handleZoomOut
    constructor
    · have h2 : (1 / 2 : ℚ) = 0.5 := by norm_num
      rw [h2]
      exact le_max_right _ _
    · refine max_le ?_ (by norm_num)
      rw [div_le_iff₀ (by norm_num : (0 : ℚ) < 1.2)]
      linarith

/-- Folding zoom events from a value in the zoom range stays in the range. -/
theorem foldl_zoomStep_bounds : ∀ (ops : List ZoomOp) (z : ℚ),
    1 / 2 ≤ z → z ≤ 3 →
    1 / 2 ≤ ops.foldl zoomStep z ∧ ops.foldl zoomStep z ≤ 3 := by
  intro ops
  induction ops with
  | nil => intro z h0 h1; exact ⟨h0, h1⟩
  | cons op rest ih =>
    intro z h0 h1
    have hstep := zoomStep_bounds z op h0 h1
    exact ih (zoomStep z op) hstep.1 hstep.2

/-- C4: after every sequence of zoom operations (wheel events with arbitrary
deltas, zoom-in clicks, zoom-out clicks) starting from the initial zoom
level 1, the zoom level remains within the range 1/2 to 3. -/
theorem zoom_always_clamped (ops : List ZoomOp) :
    1 / 2 ≤ applyZoomOps ops ∧ applyZoomOps ops ≤ 3 := by
  unfold applyZoomOps
  exact foldl_zoomStep_bounds ops 1 (by norm_num) (by norm_num)

/-! ### Resize clamping (C10) -/

/-- The per-move clamp puts the candidate size inside the resize bounds,
whatever the mouse delta. -/
theorem resizeMove_bounds (wx hy : ℚ) :
    minWidth ≤ max minWidth (min maxWidth wx) ∧
    max minWidth (min maxWidth wx) ≤ maxWidth ∧
    minHeight ≤ max minHeight (min maxHeight hy) ∧
    max minHeight (min maxHeight hy) ≤ maxHeight := by
  unfold minWidth maxWidth minHeight maxHeight
  refine ⟨le_max_left _ _, max_le (by norm_num) (min_le_left _ _),
    le_max_left _ _, max_le (by norm_num) (min_le_left _ _)⟩

/-- Folding resize moves from an in-bounds candidate size stays in bounds. -/
theorem foldl_resize_bounds (startX startY startW startH : ℚ) :
    ∀ (moves : List (ℚ × ℚ)) (acc : ℚ × ℚ),
    minWidth ≤ acc.1 → acc.1 ≤ maxWidth → minHeight ≤ acc.2 → acc.2 ≤ maxHeight →
    let r := moves.foldl
      (fun _ m =>
        (max minWidth (min maxWidth (startW + (m.1 - startX))),
         max minHeight (min maxHeight (startH + (m.2 - startY)))))
      acc
    minWidth ≤ r.1 ∧ r.1 ≤ maxWidth ∧ minHeight ≤ r.2 ∧ r.2 ≤ maxHeight := by
  intro moves
  induction moves with
  | nil => intro acc h1 h2 h3 h4; exact ⟨h1, h2, h3, h4⟩
  | cons m rest ih =>
    intro acc h1 h2 h3 h4
    have hb := resizeMove_bounds (startW + (m.1 - startX)) (startH + (m.2 - startY))
    exact ih _ hb.1 hb.2.1 hb.2.2.1 hb.2.2.2

/-- C10: for every resize gesture starting from a block size inside the
resize bounds (as every block size in the application is: initial sizes lie
in 240..400 by 120..300 and every earlier commit was clamped), the size
committed to `onResize` has width in 200..600 and height in 100..500,
regardless of how far the mouse moves. -/
theorem resize_commit_clamped (startX startY startW startH : ℚ)
    (moves : List (ℚ × ℚ))
    (hw0 : minWidth ≤ startW) (hw1 : startW ≤ maxWidth)
    (hh0 : minHeight ≤ startH) (hh1 : startH ≤ maxHeight) :
    minWidth ≤ (resizeGesture startX startY startW startH moves).1 ∧
    (resizeGesture startX startY startW startH moves).1 ≤ maxWidth ∧
    minHeight ≤ (resizeGesture startX startY startW startH moves).2 ∧
    (resizeGesture startX startY startW startH moves).2 ≤ maxHeight := by
  unfold resizeGesture
  exact foldl_resize_bounds startX startY startW startH moves
    (startW, startH) hw0 hw1 hh0 hh1

/-- Witness for C10: a concrete gesture from a 240 by 120 block with one
far mouse move commits a size inside the bounds. -/
theorem resize_commit_clamped_witness :
    minWidth ≤ (resizeGesture 0 0 240 120 [(10000, -10000)]).1 ∧
    (resizeGesture 0 0 240 120 [(10000, -10000)]).1 ≤ maxWidth ∧
    minHeight ≤ (resizeGesture 0 0 240 120 [(10000, -10000)]).2 ∧
    (resizeGesture 0 0 240 120 [(10000, -10000)]).2 ≤ maxHeight :=
  resize_commit_clamped 0 0 240 120 [(10000, -10000)]
    (by norm_num [minWidth]) (by norm_num [minWidth, maxWidth])
    (by norm_num [minHeight]) (by norm_num [minHeight, maxHeight])

/-! ### Dropped-text node size (C6) -/

/-- Rounding a rational between two integer bounds stays between them
(JavaScript `Math.round` is `floor(x + 0.5)`). -/
theorem jsRound_bounds (q : ℚ) (a b : Int)
    (h1 : (a : ℚ) ≤ q) (h2 : q ≤ (b : ℚ)) :
    a ≤ jsRound q ∧ jsRound q ≤ b := by
  unfold jsRound
  constructor
  · rw [Int.le_floor]
    linarith
  · have h3 : ⌊q + 1 / 2⌋ < b + 1 := by
      rw [Int.floor_lt]
      push_cast
      linarith
    omega

/-- The initial node size always has width in 240..400 and height in
120..300. -/
theorem calculateInitialSize_bounds (text : String) :
    240 ≤ (calculateInitialSize text).1 ∧ (calculateInitialSize text).1 ≤ 400 ∧
    120 ≤ (calculateInitialSize text).2 ∧ (calculateInitialSize text).2 ≤ 300 := by
  unfold calculateInitialSize
  dsimp only
  set words : Int := ((splitOnChar ' ' text.data).length : Int) with hwords
  set chars : Int := (text.length : Int) with hchars
  have hwq : (240 : ℚ) ≤ (if 100 < chars then min 400 (240 + ((chars : ℚ) - 100) * 1.5) else 240) ∧
      (if 100 < chars then min 400 (240 + ((chars : ℚ) - 100) * 1.5) else 240) ≤ 400 := by
    split_ifs with hc
    · constructor
      · refine le_min (by norm_num) ?_
        have hc2 : (101 : ℚ) ≤ (chars : ℚ) := by exact_mod_cast hc
        linarith
      · exact min_le_left _ _
    · norm_num
  have hh1q : (120 : ℚ) ≤ (if 100 < chars then min 250 (120 + (((chars - 100) / 60 : Int) : ℚ) * 25) else 120) ∧
      (if 100 < chars then min 250 (120 + (((chars - 100) / 60 : Int) : ℚ) * 25) else 120) ≤ 250 := by
    split_ifs with hc
    · constructor
      · refine le_min (by norm_num) ?_
        have he : (0 : Int) ≤ (chars - 100) / 60 := by omega
        have he2 : (0 : ℚ) ≤ (((chars - 100) / 60 : Int) : ℚ) := by exact_mod_cast he
        linarith
      · exact min_le_left _ _
    · norm_num
  set height1 : ℚ := (if 100 < chars then min 250 (120 + (((chars - 100) / 60 : Int) : ℚ) * 25) else 120) with hh1
  have hhq : (120 : ℚ) ≤ (if 20 < words then min 300 (height1 + (((words - 20) / 12 : Int) : ℚ) * 20) else height1) ∧
      (if 20 < words then min 300 (height1 + (((words - 20) / 12 : Int) : ℚ) * 20) else height1) ≤ 300 := by
    split_ifs with hw
    · constructor
      · refine le_min (by norm_num) ?_
        have hf : (0 : Int) ≤ (words - 20) / 12 := by omega
        have hf2 : (0 : ℚ) ≤ (((words - 20) / 12 : Int) : ℚ) := by exact_mod_cast hf
        linarith [hh1q.1]
      · exact min_le_left _ _
    · exact ⟨hh1q.1, by linarith [hh1q.2]⟩
  have hw' := jsRound_bounds
    (if 100 < chars then min 400 (240 + ((chars : ℚ) - 100) * 1.5) else 240)
    240 400 (by exact_mod_cast hwq.1) (by exact_mod_cast hwq.2)
  have hh' := jsRound_bounds
    (if 20 < words then min 300 (height1 + (((words - 20) / 12 : Int) : ℚ) * 20) else height1)
    120 300 (by exact_mod_cast hhq.1) (by exact_mod_cast hhq.2)
  exact ⟨hw'.1, hw'.2, hh'.1, hh'.2⟩

/-- C6: dropping text onto the canvas appends exactly one node; its size is
the deterministic linear-threshold function `calculateInitialSize` of the
text, so its width lies in 240..400 and its height in 120..300. -/
theorem drop_creates_one_sized_node (draggedText : String)
    (srcMsg srcChat : Option String) (rectW rectH panX panY zoom : ℚ)
    (now : Int) (s : CanvasPanelState) :
    (dropTextEffect draggedText srcMsg srcChat rectW rectH panX panY zoom now s).nodes.length
        = s.nodes.length + 1 ∧
    (dropTextEffect draggedText srcMsg srcChat rectW rectH panX panY zoom now s).nodes.map
        (fun n => (n.width, n.height))
      = s.nodes.map (fun n => (n.width, n.height))
        ++ [(((calculateInitialSize draggedText).1 : ℚ),
             ((calculateInitialSize draggedText).2 : ℚ))] ∧
    240 ≤ (calculateInitialSize draggedText).1 ∧
    (calculateInitialSize draggedText).1 ≤ 400 ∧
    120 ≤ (calculateInitialSize draggedText).2 ∧
    (calculateInitialSize draggedText).2 ≤ 300 := by
  have hb := calculateInitialSize_bounds draggedText
  unfold dropTextEffect saveCurrentCanvas
  dsimp only
  refine ⟨?_, ?_, hb.1, hb.2.1, hb.2.2.1, hb.2.2.2⟩
  · simp
  · simp

/-! ### Dropped-text placement (C1) -/

/-- C1 (failing-input evaluation): at zoom 2, pan (0, 0) and a 1000 by 600
viewport, the dropped node's center is placed at virtual x 1500, which the
canvas screen transform maps to screen x -2000 — not the viewport center
500.  The placement divides the whole offset `rect.width / 2 - pan.x + 2500`
by the zoom instead of inverting the transform
(`2500 + (rect.width / 2 - pan.x) / zoom`), so the claim holds only at
zoom 1, contradicting the code's own comments
(`Calculate the current viewport center in canvas coordinates`,
`Center the block at current viewport center`). -/
theorem drop_center_misses_viewport_center_at_zoom2 :
    ((dropTextEffect "a" none none 1000 600 0 0 2 5 (initState 0)).nodes.map
        (fun n => n.x + n.width / 2) = [1500]) ∧
    canvasScreenX 2 0 1500 = -2000 ∧
    ((1000 : ℚ) / 2 = 500) ∧ ((-2000 : ℚ) ≠ 500) := by
  refine ⟨?_, by norm_num [canvasScreenX], by norm_num, by norm_num⟩
  unfold dropTextEffect saveCurrentCanvas initState viewportCenterX
  dsimp only
  norm_num

/-! ### Chat turns and message order (C7) -/

/-- The session message list distributes over turn-list concatenation. -/
theorem sessionMessages_append : ∀ (a b : List Turn),
    sessionMessages (a ++ b) = sessionMessages a ++ sessionMessages b := by
  intro a
  induction a with
  | nil => intro b; rfl
  | cons t ts ih =>
    intro b
    simp only [List.cons_append, sessionMessages, List.append_eq, ih,
      List.append_assoc]

/-- Folding non-blank submissions appends one user-only turn per input, in
order. -/
theorem submitAll_eq : ∀ (inputs : List (String × Int)) (turns : List Turn),
    (∀ p ∈ inputs, jsTrim p.1 ≠ "") →
    submitAll inputs turns
      = turns ++ inputs.map (fun p =>
          { user := { id := toString p.2 ++ "-user", type := MsgType.user,
                      content := p.1, timestamp := p.2 },
            ai := none }) := by
  intro inputs
  induction inputs with
  | nil => intro turns _; simp [submitAll]
  | cons p rest ih =>
    intro turns h
    have hp : jsTrim p.1 ≠ "" := h p (by simp)
    have hstep : submitAll (p :: rest) turns
        = submitAll rest (handleSubmit p.1 p.2 turns) := rfl
    rw [hstep]
    unfold handleSubmit
    rw [if_neg hp]
    rw [ih _ (fun q hq => h q (List.mem_cons_of_mem _ hq))]
    simp [List.append_assoc]

/-- The messages of a list of user-only turns are exactly the user
messages. -/
theorem sessionMessages_userTurns : ∀ (inputs : List (String × Int)),
    sessionMessages (inputs.map (fun p =>
        ({ user := { id := toString p.2 ++ "-user", type := MsgType.user,
                     content := p.1, timestamp := p.2 },
           ai := none } : Turn)))
      = inputs.map (fun p =>
          { id := toString p.2 ++ "-user", type := MsgType.user,
            content := p.1, timestamp := p.2 }) := by
  intro inputs
  induction inputs with
  | nil => rfl
  | cons p rest ih => simp [sessionMessages, ih, Option.toList]

/-- C7: submitting N non-blank messages into an empty conversation yields a
session message list containing exactly those N user messages in submission
order (each appended on submit, before any network response); and stream
completion appends the assistant message at the end of the message list
when the last turn does not yet have one (preserving the interleaving). -/
theorem messages_follow_submission_order :
    (∀ (inputs : List (String × Int)), (∀ p ∈ inputs, jsTrim p.1 ≠ "") →
      sessionMessages (submitAll inputs [])
        = inputs.map (fun p =>
            { id := toString p.2 ++ "-user", type := MsgType.user,
              content := p.1, timestamp := p.2 })) ∧
    (∀ (turns : List Turn) (lastT : Turn) (msgId content : String) (now : Int),
      turns.getLast? = some lastT → lastT.ai = none →
      sessionMessages (onFinish msgId content now turns)
        = sessionMessages turns
          ++ [{ id := msgId, type := MsgType.ai, content := content,
                timestamp := now }]) := by
  constructor
  · intro inputs h
    rw [submitAll_eq inputs [] h]
    rw [List.nil_append]
    exact sessionMessages_userTurns inputs
  · intro turns lastT msgId content now hget hai
    have hne : turns ≠ [] := by
      rintro rfl
      simp at hget
    have hlast : turns.getLast hne = lastT := by
      rw [List.getLast?_eq_getLast turns hne] at hget
      exact Option.some.inj hget
    have hdecomp : turns.dropLast ++ [lastT] = turns := by
      rw [← hlast]
      exact List.dropLast_append_getLast hne
    unfold onFinish
    rw [hget]
    dsimp only
    rw [if_neg (by simp [hai])]
    rw [sessionMessages_append]
    conv_rhs => rw [← hdecomp]
    rw [sessionMessages_append]
    simp [sessionMessages, hai, Option.toList, List.append_assoc]

/-- Witness for C7: one concrete submission and one concrete stream
completion. -/
theorem messages_follow_submission_order_witness :
    (∀ p ∈ [("hi", (5 : Int))], jsTrim p.1 ≠ "") ∧
    sessionMessages (submitAll [("hi", (5 : Int))] [])
      = [("hi", (5 : Int))].map (fun p =>
          { id := toString p.2 ++ "-user", type := MsgType.user,
            content := p.1, timestamp := p.2 }) ∧
    sessionMessages (onFinish "m1" "hello" 6
        [{ user := { id := "5-user", type := MsgType.user, content := "hi",
                     timestamp := 5 }, ai := none }])
      = sessionMessages
          [{ user := { id := "5-user", type := MsgType.user, content := "hi",
                       timestamp := 5 }, ai := none }]
        ++ [{ id := "m1", type := MsgType.ai, content := "hello",
              timestamp := 6 }] :=
  ⟨by decide,
   messages_follow_submission_order.1 [("hi", (5 : Int))] (by decide),
   messages_follow_submission_order.2 _ _ "m1" "hello" 6 rfl rfl⟩

/-! ### Node colors (C5) -/

/-- Dropping text appends one node colored by the current live node count
modulo the palette size. -/
theorem drop_color_append (t : String) (sm sc : Option String)
    (rectW rectH panX panY zoom : ℚ) (now : Int) (s : CanvasPanelState) :
    (dropTextEffect t sm sc rectW rectH panX panY zoom now s).nodes.map
        (fun n => n.color)
      = s.nodes.map (fun n => n.color)
        ++ [colors.getD (s.nodes.length % colors.length) ""] := by
  unfold dropTextEffect saveCurrentCanvas
  simp

/-- Dropping text grows the node list by one. -/
theorem drop_nodes_length (t : String) (sm sc : Option String)
    (rectW rectH panX panY zoom : ℚ) (now : Int) (s : CanvasPanelState) :
    (dropTextEffect t sm sc rectW rectH panX panY zoom now s).nodes.length
      = s.nodes.length + 1 := by
  unfold dropTextEffect saveCurrentCanvas
  simp

/-- Over drop-only operation sequences, node colors follow the running node
count. -/
theorem dropsOnly_colors : ∀ (ops : List CanvasOp),
    (∀ op ∈ ops, isDropOp op = true) → ∀ (s : CanvasPanelState),
    (applyCanvasOps ops s).nodes.map (fun n => n.color)
      = s.nodes.map (fun n => n.color)
        ++ (List.range ops.length).map
            (fun n => colors.getD ((s.nodes.length + n) % colors.length) "") := by
  intro ops
  induction ops with
  | nil => intro _ s; simp [applyCanvasOps]
  | cons op rest ih =>
    intro h s
    cases op with
    | dropText t sm sc rectW rectH panX panY zoom now =>
      have hstep : applyCanvasOps (CanvasOp.dropText t sm sc rectW rectH panX panY zoom now :: rest) s
          = applyCanvasOps rest (dropTextEffect t sm sc rectW rectH panX panY zoom now s) := rfl
      rw [hstep]
      rw [ih (fun q hq => h q (List.mem_cons_of_mem _ hq)) _]
      rw [drop_color_append, drop_nodes_length]
      rw [List.length_cons, List.range_succ_eq_map]
      simp only [List.map_cons, List.map_map, List.append_assoc, Nat.add_zero,
        List.cons_append, List.nil_append]
      congr 1
      congr 1
      apply List.map_congr_left
      intro n _
      simp only [Function.comp_apply]
      congr 2
      omega
    | deleteNode nodeId now =>
      have := h _ (List.mem_cons_self _ _)
      simp [isDropOp] at this
    | newCanvas now =>
      have := h _ (List.mem_cons_self _ _)
      simp [isDropOp] at this
    | deleteCanvas canvasId now =>
      have := h _ (List.mem_cons_self _ _)
      simp [isDropOp] at this
    | selectCanvas canvasId now =>
      have := h _ (List.mem_cons_self _ _)
      simp [isDropOp] at this

/-- C5 amended: a newly created node receives the palette color indexed by
the number of nodes currently on the canvas (live count) modulo 10 — not by
the all-time creation index; over sequences without deletions the live count
equals the creation index, so the nth created node then receives color
n mod 10. -/
theorem node_color_by_live_count :
    (∀ (t : String) (sm sc : Option String) (rectW rectH panX panY zoom : ℚ)
        (now : Int) (s : CanvasPanelState),
      (dropTextEffect t sm sc rectW rectH panX panY zoom now s).nodes.map
          (fun n => n.color)
        = s.nodes.map (fun n => n.color)
          ++ [colors.getD (s.nodes.length % colors.length) ""]) ∧
    (∀ (ops : List CanvasOp) (t0 : Int), (∀ op ∈ ops, isDropOp op = true) →
      (applyCanvasOps ops (initState t0)).nodes.map (fun n => n.color)
        = (List.range ops.length).map
            (fun n => colors.getD (n % colors.length) "")) := by
  constructor
  · exact drop_color_append
  · intro ops t0 h
    rw [dropsOnly_colors ops h (initState t0)]
    simp [initState]

/-- Witness for C5 (amended): a concrete drop onto the fresh canvas and a
concrete drop-only sequence. -/
theorem node_color_by_live_count_witness :
    ((dropTextEffect "a" none none 1000 600 0 0 1 1 (initState 0)).nodes.map
        (fun n => n.color)
      = (initState 0).nodes.map (fun n => n.color)
        ++ [colors.getD ((initState 0).nodes.length % colors.length) ""]) ∧
    (∀ op ∈ [CanvasOp.dropText "a" none none 1000 600 0 0 1 (1 : Int)],
        isDropOp op = true) ∧
    ((applyCanvasOps [CanvasOp.dropText "a" none none 1000 600 0 0 1 1]
        (initState 0)).nodes.map (fun n => n.color)
      = (List.range 1).map (fun n => colors.getD (n % colors.length) "")) :=
  ⟨node_color_by_live_count.1 "a" none none 1000 600 0 0 1 1 (initState 0),
   by decide,
   node_color_by_live_count.2 [CanvasOp.dropText "a" none none 1000 600 0 0 1 1]
     0 (by decide)⟩

/-- C5 counterexample: create a node, delete it, create a second node.  The
second node is the 2nd creation of the canvas (creation index 1), so the
claim assigns it palette color 1 mod 10 = `#14B8A6`; the code colors it by
the live node count 0 and it receives `#3B82F6`. -/
theorem second_creation_not_colored_by_creation_index :
    ((applyCanvasOps
        [CanvasOp.dropText "a" none none 1000 600 0 0 1 1,
         CanvasOp.deleteNode "1" 2,
         CanvasOp.dropText "b" none none 1000 600 0 0 1 3]
        (initState 0)).nodes.map (fun n => n.color) = ["#3B82F6"]) ∧
    colors.getD (1 % colors.length) "" = "#14B8A6" ∧
    ("#3B82F6" : String) ≠ "#14B8A6" := by
  refine ⟨by decide, by decide, by decide⟩

/-! ### Canvas list invariants (C9) -/

/-- Mapping an id-preserving update over a canvas list preserves the ids. -/
theorem ids_map_update (cs : List CanvasData) (f : CanvasData → CanvasData)
    (hf : ∀ c, (f c).id = c.id) :
    (cs.map f).map (fun c => c.id) = cs.map (fun c => c.id) := by
  induction cs with
  | nil => rfl
  | cons c t ih => simp only [List.map_cons, ih, hf]

/-- Filtering a canvas list by id commutes with taking the id list. -/
theorem ids_filter (cs : List CanvasData) (cid : String) :
    (cs.filter (fun c => c.id != cid)).map (fun c => c.id)
      = (cs.map (fun c => c.id)).filter (fun i => i != cid) := by
  induction cs with
  | nil => rfl
  | cons c t ih =>
    simp only [List.map_cons, List.filter_cons]
    cases hb : (c.id != cid) <;> simp [hb, ih]

/-- The save effect does not change the canvas id list. -/
theorem canvasIds_save (now : Int) (s : CanvasPanelState) :
    canvasIds (saveCurrentCanvas now s) = canvasIds s := by
  unfold saveCurrentCanvas canvasIds
  exact ids_map_update _ _ (fun c => by split_ifs <;> rfl)

/-- Selecting a canvas does not change the canvas id list. -/
theorem canvasIds_select (cid : String) (now : Int) (s : CanvasPanelState) :
    canvasIds (handleCanvasSelect cid now s) = canvasIds s := by
  unfold handleCanvasSelect
  split_ifs with h
  · cases hf : (s.canvases.map (fun c =>
        if c.id = s.currentCanvasId then
          { c with nodes := s.nodes, connections := s.connections,
                   lastModified := now }
        else c)).find? (fun c => c.id == cid) with
    | none =>
      simp only [hf]
      unfold canvasIds
      exact ids_map_update _ _ (fun c => by split_ifs <;> rfl)
    | some target =>
      simp only [hf]
      unfold canvasIds
      exact ids_map_update _ _ (fun c => by split_ifs <;> rfl)
  · cases hf : s.canvases.find? (fun c => c.id == cid) with
    | none => simp only [hf]
    | some c => simp only [hf]; rfl

/-- Dropping text does not change the canvas id list. -/
theorem canvasIds_drop (t : String) (sm sc : Option String)
    (rectW rectH panX panY zoom : ℚ) (now : Int) (s : CanvasPanelState) :
    canvasIds (dropTextEffect t sm sc rectW rectH panX panY zoom now s)
      = canvasIds s := by
  unfold dropTextEffect
  exact canvasIds_save now _

/-- Deleting a node does not change the canvas id list. -/
theorem canvasIds_deleteNode (nodeId : String) (now : Int)
    (s : CanvasPanelState) :
    canvasIds (handleDeleteNode nodeId now s) = canvasIds s := by
  unfold handleDeleteNode
  exact canvasIds_save now _

/-- Creating a canvas appends its id to the canvas id list. -/
theorem canvasIds_newCanvas (now : Int) (s : CanvasPanelState) :
    canvasIds (handleNewCanvas now s)
      = canvasIds s ++ ["canvas-" ++ toString now] := by
  unfold handleNewCanvas
  rw [canvasIds_select]
  unfold canvasIds
  simp

/-- An unguarded canvas delete filters the deleted id out of the id list. -/
theorem canvasIds_delete (cid : String) (now : Int) (s : CanvasPanelState)
    (h : ¬ s.canvases.length ≤ 1) :
    canvasIds (handleCanvasDelete cid now s)
      = (canvasIds s).filter (fun i => i != cid) := by
  unfold handleCanvasDelete
  rw [if_neg h]
  have hfm : (s.canvases.filter (fun c => c.id != cid)).map (fun c => c.id)
      = (s.canvases.map (fun c => c.id)).filter (fun i => i != cid) :=
    ids_filter s.canvases cid
  split_ifs with hcur
  · cases hh : (s.canvases.filter (fun c => c.id != cid)).head? with
    | none => simp only [hh]; exact hfm
    | some c => simp only [hh]; rw [canvasIds_select]; exact hfm
  · exact hfm

/-- A guarded canvas delete (at most one canvas) changes nothing. -/
theorem handleCanvasDelete_noop (cid : String) (now : Int)
    (s : CanvasPanelState) (h : s.canvases.length ≤ 1) :
    handleCanvasDelete cid now s = s := by
  unfold handleCanvasDelete
  rw [if_pos h]

/-- In a duplicate-free list, filtering one value away removes at most one
element. -/
theorem nodup_filter_ne_length (l : List String) (a : String) (h : l.Nodup) :
    l.length ≤ (l.filter (fun x => x != a)).length + 1 := by
  induction l with
  | nil => simp
  | cons b t ih =>
    rw [List.filter_cons]
    by_cases hb : b = a
    · subst hb
      rw [if_neg (by simp)]
      have ht : t.filter (fun x => x != b) = t := by
        rw [List.filter_eq_self]
        intro x hx
        have hxb : x ≠ b := fun he => (List.nodup_cons.1 h).1 (he ▸ hx)
        simp [hxb]
      rw [ht]
      simp
    · rw [if_pos (by simp [hb])]
      have := ih (List.nodup_cons.1 h).2
      simp only [List.length_cons]
      omega

/-- Invariant induction: from a state with a non-empty, duplicate-free
canvas id list whose ids are disjoint from the ids of the canvases still to
be created, any operation sequence with duplicate-free creation ids keeps
the canvas id list non-empty. -/
theorem canvases_nonempty_aux : ∀ (ops : List CanvasOp) (s : CanvasPanelState),
    canvasIds s ≠ [] → (canvasIds s).Nodup →
    (∀ i ∈ canvasIds s, i ∉ createIds ops) → (createIds ops).Nodup →
    canvasIds (applyCanvasOps ops s) ≠ [] := by
  intro ops
  induction ops with
  | nil => intro s h1 _ _ _; simpa [applyCanvasOps] using h1
  | cons op rest ih =>
    intro s h1 h2 h3 h4
    cases op with
    | dropText t sm sc rectW rectH panX panY zoom now =>
      have heq := canvasIds_drop t sm sc rectW rectH panX panY zoom now s
      have hstep : applyCanvasOps (CanvasOp.dropText t sm sc rectW rectH panX panY zoom now :: rest) s
          = applyCanvasOps rest (dropTextEffect t sm sc rectW rectH panX panY zoom now s) := rfl
      rw [hstep]
      refine ih _ ?_ ?_ ?_ h4
      · rw [heq]; exact h1
      · rw [heq]; exact h2
      · rw [heq]; exact h3
    | deleteNode nodeId now =>
      have heq := canvasIds_deleteNode nodeId now s
      have hstep : applyCanvasOps (CanvasOp.deleteNode nodeId now :: rest) s
          = applyCanvasOps rest (handleDeleteNode nodeId now s) := rfl
      rw [hstep]
      refine ih _ ?_ ?_ ?_ h4
      · rw [heq]; exact h1
      · rw [heq]; exact h2
      · rw [heq]; exact h3
    | selectCanvas cid now =>
      have heq := canvasIds_select cid now s
      have hstep : applyCanvasOps (CanvasOp.selectCanvas cid now :: rest) s
          = applyCanvasOps rest (handleCanvasSelect cid now s) := rfl
      rw [hstep]
      refine ih _ ?_ ?_ ?_ h4
      · rw [heq]; exact h1
      · rw [heq]; exact h2
      · rw [heq]; exact h3
    | newCanvas now =>
      have heq := canvasIds_newCanvas now s
      have hnid : ("canvas-" ++ toString now) ∈ createIds (CanvasOp.newCanvas now :: rest) := by
        simp [createIds]
      have h4' : ("canvas-" ++ toString now) ∉ createIds rest ∧ (createIds rest).Nodup := by
        have : createIds (CanvasOp.newCanvas now :: rest)
            = ("canvas-" ++ toString now) :: createIds rest := rfl
        rw [this] at h4
        exact ⟨(List.nodup_cons.1 h4).1, (List.nodup_cons.1 h4).2⟩
      have hstep : applyCanvasOps (CanvasOp.newCanvas now :: rest) s
          = applyCanvasOps rest (handleNewCanvas now s) := rfl
      rw [hstep]
      refine ih _ ?_ ?_ ?_ h4'.2
      · rw [heq]; simp
      · rw [heq]
        rw [List.nodup_append]
        refine ⟨h2, List.nodup_singleton _, ?_⟩
        intro a ha hb
        have hab : a = "canvas-" ++ toString now := by simpa using hb
        exact (h3 a ha) (hab ▸ hnid)
      · rw [heq]
        intro i hi
        rcases List.mem_append.1 hi with hiold | hinew
        · have := h3 i hiold
          intro hc
          exact this (by
            have : createIds (CanvasOp.newCanvas now :: rest)
                = ("canvas-" ++ toString now) :: createIds rest := rfl
            rw [this]
            exact List.mem_cons_of_mem _ hc)
        · have hieq : i = "canvas-" ++ toString now := by simpa using hinew
          rw [hieq]
          exact h4'.1
    | deleteCanvas cid now =>
      by_cases hg : s.canvases.length ≤ 1
      · have heq := handleCanvasDelete_noop cid now s hg
        have hstep : applyCanvasOps (CanvasOp.deleteCanvas cid now :: rest) s
            = applyCanvasOps rest (handleCanvasDelete cid now s) := rfl
        rw [hstep, heq]
        exact ih s h1 h2 h3 h4
      · have heq := canvasIds_delete cid now s hg
        have hstep : applyCanvasOps (CanvasOp.deleteCanvas cid now :: rest) s
            = applyCanvasOps rest (handleCanvasDelete cid now s) := rfl
        rw [hstep]
        refine ih _ ?_ ?_ ?_ h4
        · rw [heq]
          have hlen : 2 ≤ (canvasIds s).length := by
            unfold canvasIds
            rw [List.length_map]
            omega
          have hf := nodup_filter_ne_length (canvasIds s) cid h2
          intro hnil
          rw [hnil] at hf
          simp at hf
          omega
        · rw [heq]; exact h2.filter _
        · rw [heq]
          intro i hi
          exact h3 i (List.mem_of_mem_filter hi)

/-- C9 amended: deleting a canvas while only one exists leaves the state
completely unchanged; and under every sequence of canvas panel operations
from the initial single default canvas in which the `Date.now()`-derived ids
of created canvases are pairwise distinct and distinct from
`default-canvas`, the canvas list stays non-empty.  (With colliding creation
timestamps two canvases can share an id, and one delete then removes both.) -/
theorem canvas_delete_guarded_and_list_nonempty :
    (∀ (canvasId : String) (now : Int) (s : CanvasPanelState),
      s.canvases.length = 1 → handleCanvasDelete canvasId now s = s) ∧
    (∀ (ops : List CanvasOp) (t0 : Int),
      ("default-canvas" :: createIds ops).Nodup →
      (applyCanvasOps ops (initState t0)).canvases ≠ []) := by
  constructor
  · intro canvasId now s h
    exact handleCanvasDelete_noop canvasId now s (by omega)
  · intro ops t0 h
    have hids : canvasIds (initState t0) = ["default-canvas"] := rfl
    have haux := canvases_nonempty_aux ops (initState t0)
      (by rw [hids]; simp)
      (by rw [hids]; exact List.nodup_singleton _)
      (by
        rw [hids]
        intro i hi
        have : i = "default-canvas" := by simpa using hi
        rw [this]
        exact (List.nodup_cons.1 h).1)
      (List.nodup_cons.1 h).2
    intro hc
    apply haux
    unfold canvasIds
    rw [hc]
    rfl

/-- Witness for C9: the guarded delete on the initial state, and a single
fresh canvas creation keeping the list non-empty. -/
theorem canvas_delete_guarded_and_list_nonempty_witness :
    ((initState 0).canvases.length = 1 ∧
     handleCanvasDelete "default-canvas" 1 (initState 0) = initState 0) ∧
    (("default-canvas" :: createIds [CanvasOp.newCanvas 7]).Nodup ∧
     (applyCanvasOps [CanvasOp.newCanvas 7] (initState 0)).canvases ≠ []) :=
  ⟨⟨rfl, canvas_delete_guarded_and_list_nonempty.1 "default-canvas" 1
      (initState 0) rfl⟩,
   ⟨by decide, canvas_delete_guarded_and_list_nonempty.2
      [CanvasOp.newCanvas 7] 0 (by decide)⟩⟩

/-- C9 counterexample: two canvas creations in the same millisecond receive
the same id `canvas-7`; after deleting the default canvas, deleting
`canvas-7` removes both copies at once and leaves the canvas list empty. -/
theorem duplicate_ids_can_empty_canvas_list :
    (applyCanvasOps
        [CanvasOp.newCanvas 7,
         CanvasOp.deleteCanvas "default-canvas" 8,
         CanvasOp.newCanvas 7,
         CanvasOp.deleteCanvas "canvas-7" 9]
        (initState 0)).canvases = [] := by
  decide

end CatWithH
